import Mathlib

/-!
Verification development for the `dream` repository fragments under `src/`.

The main subject is `src/annotators/kbqa/query_generator_base.py`
(class `QueryGeneratorBase`): template selection, slot binding and
relation ranking for KBQA, shallow-embedded below.  Python's partial
operations (`xs[i]`, `xs[-1]`, `dict[k]`) are embedded in the
`Except String` monad so that the exceptions the code can actually raise
(`IndexError`, `KeyError`) are visible; the single exception the code
catches (`json.decoder.JSONDecodeError` around the two collaborator
calls) is modelled by the collaborator returning `Except Unit`.
Mutable attributes of `self` that the embedded methods assign
(`template_nums`; and the fields set by `load`) live in `QGState`,
threaded explicitly.  External collaborator components
(template matcher, entity linker, relation ranker, wiki parser, the
wikihow search/scrape pair, and the subclass-provided `query_parser`
method, all defined outside `src/`) are fields of `Services`.

The second subject is `src/skill_selectors/rule_based_selector/server.py`
(`RuleBasedSelector.__call__`), embedded at the bottom.
-/

namespace Dream

/-- Python `xs[i]` on a list: `IndexError` when out of range. -/
def pyIndex {α : Type} (xs : List α) (i : Nat) : Except String α :=
  match xs.get? i with
  | some v => Except.ok v
  | none => Except.error "IndexError"

/-- Python `xs[-1]` on a list: `IndexError` when empty. -/
def pyLast {α : Type} (xs : List α) : Except String α :=
  match xs.getLast? with
  | some v => Except.ok v
  | none => Except.error "IndexError"

/-- Remainder of `s` after removing `pat` from its front, when `pat`
starts `s`. -/
def stripPrefixQ {α : Type} [DecidableEq α] : List α → List α → Option (List α)
  | [], s => some s
  | _ :: _, [] => none
  | p :: ps, c :: cs => if p = c then stripPrefixQ ps cs else none

/-- Fuel-driven left-to-right non-overlapping replacement, the semantics
of Python `str.replace` for a non-empty pattern (fuel `s.length` always
suffices); written with explicit fuel so that it evaluates by kernel
reduction. -/
def replaceFuel {α : Type} [DecidableEq α] (pat rep : List α) : Nat → List α → List α
  | 0, s => s
  | _ + 1, [] => []
  | fuel + 1, c :: rest =>
    match stripPrefixQ pat (c :: rest) with
    | some rem => rep ++ replaceFuel pat rep fuel rem
    | none => c :: replaceFuel pat rep fuel rest

/-- Python `s.replace(pat, rep)` (non-empty `pat`). -/
def pyReplace (s pat rep : String) : String :=
  String.mk (replaceFuel pat.data rep.data s.data.length s.data)

/-- Fuel-driven splitting on a non-empty separator, the semantics of
Python `str.split(sep)`; always returns at least one part. -/
def splitFuel {α : Type} [DecidableEq α] (sep : List α) : Nat → List α → List α → List (List α)
  | 0, acc, s => [acc.reverse ++ s]
  | _ + 1, acc, [] => [acc.reverse]
  | fuel + 1, acc, c :: rest =>
    match stripPrefixQ sep (c :: rest) with
    | some rem => acc.reverse :: splitFuel sep fuel [] rem
    | none => splitFuel sep fuel (c :: acc) rest

/-- Python `s.split(sep)` (non-empty `sep`). -/
def pySplitOn (s sep : String) : List String :=
  (splitFuel sep.data (s.data.length + 1) [] s.data).map String.mk

/-- Python `s.lower()`. -/
def pyLower (s : String) : String :=
  String.mk (s.data.map Char.toLower)

/-- Python `s.startswith(pre)`. -/
def pyStartsWith (s pre : String) : Bool :=
  (stripPrefixQ pre.data s.data).isSome

/-- Python `pat in s` substring test (for non-empty `pat`). -/
def pyStrIn (pat s : String) : Bool :=
  (pySplitOn s pat).length > 1

/-- Monadic filter in `Except String`, evaluating the predicate on every
element in order, as a Python filtering `for` loop does. -/
def filterE {α : Type} (p : α → Except String Bool) : List α → Except String (List α)
  | [] => Except.ok []
  | x :: xs => do
    let b ← p x
    let rest ← filterE p xs
    pure (if b then x :: rest else rest)

/-- Per-mention entity identifier lists (`List[List[str]]` in the source). -/
abbrev EntityIds := List (List String)

/-- NER type records for one mention: a list of type tuples, each tuple a
list of strings whose element `0` carries the coarse tag compared against
`"misc"`. -/
abbrev MentionTypes := List (List String)

/-- The `answer_types or q_type_flag` value: either the template matcher's
answer-type list (Python list, when non-empty) or the caller's question-type
flag (Python str).  Passed opaquely to the query binder. -/
abbrev AnswerInfo := Sum (List String) String

/-- One record of the template library `template_queries` (loaded from the
sparql-queries JSON file): query string, declared slot counts, relation
directions, slot-selection spec and alternative templates
(`[template_num, entities_and_types_select]` pairs). -/
structure Template where
  template_num : String
  query_template : String
  entities_and_types_num : List Nat
  entities_and_types_select : String
  rel_dirs : List String
  alternative_templates : List (String × String)
  deriving DecidableEq, Repr

/-- The 9-tuple returned by the template matcher collaborator
(`self.template_matcher(question_sanitized, entities_from_ner)`). -/
structure TMOut where
  entities_from_template : List String
  types_from_template : List String
  rels_from_template : List (List String)
  rel_dirs_from_template : List String
  query_type_template : String
  entity_types : List String
  template_answer : String
  answer_types : List String
  template_found : String
  deriving DecidableEq, Repr

/-- Candidate answers as produced by the query binder, plus the literal
`["PHOW", how_to_content, 1.0]` record built on the how-to path
(`Candidate.phow content` stands for that record; its constant
trailing confidence `1.0` is not modelled separately). -/
inductive Candidate where
  | phow (content : String)
  | fromQp (data : List String)
  deriving DecidableEq, Repr

/-- Immutable configuration of `QueryGeneratorBase.__init__`.
`structure_known` embeds the source's `syntax_structure_known` flag.
The two api-requester flags select a wire format of the linker and the
wiki parser (collaborators outside `src/`); their unwrapping steps
(`el_output[0]` / `entity_ids[0]` / `[rel[0] for rel in ex_rels]`) are
wire-format adaptation folded into the collaborator model here, so the
flags themselves are carried but unread. -/
structure Config where
  structure_known : Bool
  use_alt_templates : Bool
  use_el_api_requester : Bool
  use_wp_api_requester : Bool
  entities_to_leave : Nat
  rels_to_leave : Nat
  deriving DecidableEq, Repr

/-- Mutable attributes of the generator: the template library and the two
static rank lists populated by `load`, and `template_nums`, which
`find_candidate_answers` assigns and `sparql_template_parser` reads.
`template_queries` is the JSON mapping as an association list in file
order (Python dicts preserve insertion order). -/
structure QGState where
  template_queries : List (String × Template)
  rank_list_0 : List String
  rank_list_1 : List String
  template_nums : List String
  deriving DecidableEq, Repr

/-- External collaborators (all defined outside `src/`), as pure functions.
`linker_entities` and `wikiParser` return `Except Unit` because the source
wraps exactly those calls in `try/except json.decoder.JSONDecodeError`;
both yield their payload already stripped of the api-requester batching
wrapper (see `Config`).  `queryParser` is the subclass-provided
`query_parser` method (not defined in this file of the source);
`search`/`get_html`/`find_p` model the whapi + BeautifulSoup calls of
`find_answer_wikihow`, with `find_p` giving the text of the `p` tags. -/
structure Services where
  template_matcher : String → List String → TMOut
  linker_entities : List (List String) → List (List MentionTypes) → List (List String) →
    Except Unit EntityIds
  linker_types : List (List String) → List EntityIds
  rank_rels : String → List String → List (String × Int)
  wikiParser : List String → List (String × String × String) → Except Unit (List String)
  queryParser : String → Template → String → EntityIds → EntityIds →
    Option (List (List String)) → AnswerInfo → List Candidate
  search : String → Nat → List String
  get_html : String → String
  find_p : String → List String

/-- The `load` method: fills the two rank lists from the first
tab-separated column of the two rank files and installs the template
library read from the sparql-queries file. -/
def load (rank_lines_1 rank_lines_2 : List String)
    (sparql_queries : List (String × Template)) (st : QGState) : QGState :=
  { st with
    rank_list_0 := rank_lines_1.map (fun line => (pySplitOn line "\t").headD ""),
    rank_list_1 := rank_lines_2.map (fun line => (pySplitOn line "\t").headD ""),
    template_queries := sparql_queries }

/-- The fixed token-replacement table applied to `question` at the start of
`find_candidate_answers` (braces written as `\x7b`/`\x7d`). -/
def replaceQuestionTokens (question : String) : String :=
  let replace_tokens := [
    (" - ", "-"), (" .", ""), ("\x7b", ""), ("\x7d", ""), ("  ", " "),
    ("\"", "\x27"), ("(", ""), (")", ""), ("–", "-")]
  replace_tokens.foldl (fun q p => pyReplace q p.1 p.2) question

/-- The method `get_entity_ids`.  On the `"entities"` branch the linker
call's decode failure is caught and leaves `el_output = []`; the
subsequent `entity_ids` extraction from the (already unwrapped, see
`Services`) linker payload is the payload itself.  The `"types"` branch
(never exercised from `src/`) indexes the first batch element without
a guard.  `template_found` is only logged by the source and is unused. -/
def get_entity_ids (svc : Services) (entities : List String)
    (what_to_link : String) (template_found : Option String)
    (question : String) (entity_types : List MentionTypes) :
    Except String EntityIds :=
  if what_to_link = "entities" then
    let entities := entities.map (fun e => pyLower e)
    let el_output :=
      match svc.linker_entities [entities] [entity_types] [[pyLower question]] with
      | Except.error _ => []
      | Except.ok out => out
    Except.ok el_output
  else if what_to_link = "types" then do
    let res := svc.linker_types [entities]
    pyIndex res 0
  else
    Except.ok []

/-- The template-collection prelude of `sparql_template_parser`: for each
requested `template_num`, collect the library records matching it (by
dict key when the syntax structure is known, by the record's
`template_num` field otherwise), then — only when the syntax structure is
not known — keep those whose declared
`entities_and_types_num` equals `[len(entity_ids), len(type_ids)]`. -/
def eligibleTemplates (cfg : Config) (template_queries : List (String × Template))
    (template_nums : List String) (entity_ids type_ids : EntityIds) : List Template :=
  let templates := template_nums.flatMap (fun template_num =>
    (template_queries.filter (fun p =>
      (p.1 == template_num && cfg.structure_known) ||
      (p.2.template_num == template_num && !cfg.structure_known))).map Prod.snd)
  templates.filter (fun t =>
    (!cfg.structure_known &&
      decide ([entity_ids.length, type_ids.length] = t.entities_and_types_num)) ||
    cfg.structure_known)

/-- The query binder as invoked from `sparql_template_parser`: all
arguments except the template and the slot-selection spec are fixed for
the duration of one call. -/
def qpOf (svc : Services) (question : String) (entity_ids type_ids : EntityIds)
    (rels : Option (List (List String))) (answer_types : AnswerInfo) :
    Template → String → List Candidate :=
  fun t sel => svc.queryParser question t sel entity_ids type_ids rels answer_types

/-- Trace of the `(template, entities_and_types_select)` arguments passed
to the query binder, in call order. -/
abbrev Trace := List (Template × String)

/-- The primary-template loop of `sparql_template_parser`: try each
template in order with its own slot-selection spec, returning at the
first non-empty binder result; the trace records every binder call made. -/
def tryTemplates (qp1 : Template → String → List Candidate) :
    List Template → List Candidate × Trace
  | [] => ([], [])
  | t :: rest =>
    let sel := t.entities_and_types_select
    let outs := qp1 t sel
    if outs ≠ [] then (outs, [(t, sel)])
    else
      let r := tryTemplates qp1 rest
      (r.1, (t, sel) :: r.2)

/-- Python `self.template_queries[template_num]`: `KeyError` when the
number is not in the library. -/
def lookupTemplate (tq : List (String × Template)) (k : String) : Except String Template :=
  match tq.lookup k with
  | some t => Except.ok t
  | none => Except.error "KeyError"

/-- The alternative-template loop of `sparql_template_parser`: for each
declared `[template_num, entities_and_types_select]` pair in order, look
the template up in the library (unguarded dict access) and call the
binder, returning at the first non-empty result. -/
def tryAlts (tq : List (String × Template)) (qp1 : Template → String → List Candidate) :
    List (String × String) → Except String (List Candidate × Trace)
  | [] => Except.ok ([], [])
  | (num, sel) :: rest => do
    let t ← lookupTemplate tq num
    let outs := qp1 t sel
    if outs ≠ [] then pure (outs, [(t, sel)])
    else do
      let r ← tryAlts tq qp1 rest
      pure (r.1, (t, sel) :: r.2)

/-- The `query_template` selection loop on the known-relation-direction
path: `query_template` starts as the falsy `{}` (here `none`) and is
overwritten by every template whose `rel_dirs` equal the supplied
signature, so the last match wins. -/
def lastMatching (dirs : Option (List String)) (ts : List Template) : Option Template :=
  ts.foldl (fun acc t => if some t.rel_dirs = dirs then some t else acc) none

/-- The method `sparql_template_parser`.  Returns the candidate outputs
together with the trace of query-binder invocations.  Control flow of the
source: empty eligible list returns immediately; a supplied
`rels_from_template` selects (at most) the one template whose `rel_dirs`
equal `rel_dirs_from_template` and binds it once; otherwise the primary
loop runs, and only when it produced nothing and `use_alt_templates` is
set does the alternative loop over `templates[0]["alternative_templates"]`
run. -/
def sparqlTemplateParser (cfg : Config) (svc : Services) (st : QGState)
    (question : String) (entity_ids type_ids : EntityIds) (answer_types : AnswerInfo)
    (rels_from_template : Option (List (List String)))
    (rel_dirs_from_template : Option (List String)) :
    Except String (List Candidate × Trace) := do
  let templates := eligibleTemplates cfg st.template_queries st.template_nums entity_ids type_ids
  if templates = [] then
    pure ([], [])
  else
    match rels_from_template with
    | some _ =>
      match lastMatching rel_dirs_from_template templates with
      | some query_template =>
        let sel := query_template.entities_and_types_select
        pure (qpOf svc question entity_ids type_ids rels_from_template answer_types
          query_template sel, [(query_template, sel)])
      | none => pure ([], [])
    | none =>
      let qp1 := qpOf svc question entity_ids type_ids none answer_types
      let r := tryTemplates qp1 templates
      if r.1 ≠ [] then
        pure r
      else if cfg.use_alt_templates then do
        let t0 ← pyIndex templates 0
        let r2 ← tryAlts st.template_queries qp1 t0.alternative_templates
        pure (r2.1, r.2 ++ r2.2)
      else
        pure r

/-- The deduplicated `(entity, direction, rel_type)` query list built by
`find_top_rels` from the first `entities_to_leave` identifiers of every
mention (the source builds a Python set; `dedup` is its deterministic
stand-in — the claims below depend only on membership). -/
def queriesListOf (cfg : Config) (entity_ids : EntityIds)
    (direction rel_type : String) : List (String × String × String) :=
  (entity_ids.flatMap (fun entity_id =>
    (entity_id.take cfg.entities_to_leave).map (fun entity =>
      (entity, direction, rel_type)))).dedup

/-- The raw relation pool of `find_top_rels` before the `"P"` filter:
from the wiki parser (decode failure caught as an empty list, result
deduplicated and reduced to the last `/`-separated path segment), or one
of the two static rank lists, or empty for an unknown source. -/
def exRelsOf (cfg : Config) (svc : Services) (st : QGState)
    (entity_ids : EntityIds) (triplet_info : String × String × String) : List String :=
  let (direction, source, rel_type) := triplet_info
  if source = "wiki" then
    let queries_list := queriesListOf cfg entity_ids direction rel_type
    let parser_info_list := queries_list.map (fun _ => "find_rels")
    let ex_rels :=
      match svc.wikiParser parser_info_list queries_list with
      | Except.error _ => []
      | Except.ok rels => rels
    let ex_rels := ex_rels.dedup
    ex_rels.map (fun rel => (pySplitOn rel "/").getLastD "")
  else if source = "rank_list_1" then st.rank_list_0
  else if source = "rank_list_2" then st.rank_list_1
  else []

/-- The method `find_top_rels`: filter the pool to identifiers starting
with `"P"`, rank them against the question with the relation ranker
(skipped when the pool is empty), and keep the first `rels_to_leave`. -/
def find_top_rels (cfg : Config) (svc : Services) (st : QGState)
    (question : String) (entity_ids : EntityIds)
    (triplet_info : String × String × String) : List (String × Int) :=
  let ex_rels := (exRelsOf cfg svc st entity_ids triplet_info).filter
    (fun rel => pyStartsWith rel "P")
  let rels_with_scores :=
    if ex_rels ≠ [] then svc.rank_rels question ex_rels else []
  rels_with_scores.take cfg.rels_to_leave

/-- The method `find_answer_wikihow`: search wikihow for the phrase,
fetch the top hit's page, and answer with the first paragraph's stripped
text suffixed `@en`, or the literal `"Not Found"` when either no search
result or no paragraph is available. -/
def find_answer_wikihow (svc : Services) (howto_sentence : String) : String :=
  let search_results := svc.search howto_sentence 5
  let tags : List String :=
    match search_results with
    | [] => []
    | article_id :: _ => svc.find_p (svc.get_html article_id)
  match tags with
  | [] => "Not Found"
  | t :: _ => t.trim ++ "@en"

/-- The list comprehension `any([elem[0] != "misc" for elem in types])`:
evaluates `elem[0]` on every element (so an empty type tuple raises)
before taking the disjunction. -/
def hasNonMisc (types : MentionTypes) : Except String Bool := do
  let flags ← types.mapM (fun elem => do
    let h ← pyIndex elem 0
    pure (h != "misc"))
  pure (flags.any id)

/-- The template-path body of `find_candidate_answers` (run when the
matcher yields entity or type mentions): the `PHOW` sentinel check on
`rels_from_template[0][0]` (unguarded), then either the wikihow path or
the misc-filtering of `types_from_ner` (whose `filtered_types[-1]` is
unguarded), entity linking, and template parsing with known relation
directions.  Returns the candidates and the (possibly reassigned)
`types_from_ner`. -/
def templatePath (cfg : Config) (svc : Services) (st2 : QGState)
    (question question_sanitized : String) (tm : TMOut)
    (types_from_ner : List MentionTypes) :
    Except String (List Candidate × List MentionTypes) := do
  let first_rel ← pyIndex tm.rels_from_template 0
  let first_rel_head ← pyIndex first_rel 0
  if first_rel_head = "PHOW" then do
    let ent0 ← pyIndex tm.entities_from_template 0
    let how_to_content := find_answer_wikihow svc ent0
    pure ([Candidate.phow how_to_content], types_from_ner)
  else do
    let types_from_ner ←
      if types_from_ner.length > 1 then do
        let filtered_types ← filterE hasNonMisc types_from_ner
        let last_t ← pyLast filtered_types
        pure [last_t]
      else
        pure types_from_ner
    let entity_ids ← get_entity_ids svc tm.entities_from_template "entities"
      (some tm.template_found) question types_from_ner
    let type_ids : EntityIds := []
    let r ← sparqlTemplateParser cfg svc st2 question_sanitized entity_ids type_ids
      (Sum.inl tm.answer_types) (some tm.rels_from_template)
      (some tm.rel_dirs_from_template)
    pure (r.1, types_from_ner)

/-- The NER-fallback body of `find_candidate_answers` (taken when the
template path produced nothing and NER entities exist): the guarded misc
filter over `zip(entities_from_ner, types_from_ner)`, entity linking,
the `template_nums = template_types` reset, the `entity_ids[:3]` cut
when the syntax structure is unknown, and template parsing without known
relation directions.  Returns the updated state and the candidates. -/
def nerFallback (cfg : Config) (svc : Services) (st2 : QGState)
    (question question_sanitized : String) (template_types : List String)
    (answer_info : AnswerInfo) (entities_from_ner : List String)
    (types_from_ner : List MentionTypes) :
    Except String (QGState × List Candidate) := do
  let step2 ←
    if entities_from_ner.length > 1 then do
      let filtered ← filterE (fun p => hasNonMisc p.2) (entities_from_ner.zip types_from_ner)
      if filtered ≠ [] then do
        let last_p ← pyLast filtered
        pure ([last_p.1], [last_p.2])
      else
        pure (([] : List String), ([] : List MentionTypes))
    else
      pure (entities_from_ner, types_from_ner)
  let entity_ids ← get_entity_ids svc step2.1 "entities" none question step2.2
  let type_ids : EntityIds := []
  let st3 := { st2 with template_nums := template_types }
  let entity_ids := if !cfg.structure_known then entity_ids.take 3 else entity_ids
  let r ← sparqlTemplateParser cfg svc st3 question_sanitized entity_ids type_ids
    answer_info none none
  pure (st3, r.1)

/-- The method `find_candidate_answers`, returning the final state (its
three `self.template_nums` assignments included), the candidate outputs
and the template answer: token normalisation of `question`, the template
matcher call, the `answer_types or q_type_flag` combination, then the
template path when the matcher found entity or type mentions, and the
NER fallback when that produced no candidate and NER entities exist. -/
def find_candidate_answers (cfg : Config) (svc : Services) (st0 : QGState)
    (question : String) (question_sanitized : String) (template_types : List String)
    (entities_from_ner : List String) (types_from_ner : List MentionTypes)
    (q_type_flag : String) : Except String (QGState × List Candidate × String) := do
  let st1 := { st0 with template_nums := template_types }
  let question := replaceQuestionTokens question
  let tm := svc.template_matcher question_sanitized entities_from_ner
  let answer_info : AnswerInfo :=
    if tm.answer_types ≠ [] then Sum.inl tm.answer_types else Sum.inr q_type_flag
  let st2 := { st1 with template_nums := [tm.query_type_template] }
  let step1 ←
    if tm.entities_from_template ≠ [] ∨ tm.types_from_template ≠ [] then
      templatePath cfg svc st2 question question_sanitized tm types_from_ner
    else
      pure (([] : List Candidate), types_from_ner)
  if step1.1 = [] ∧ entities_from_ner ≠ [] then do
    let r ← nerFallback cfg svc st2 question question_sanitized template_types answer_info
      entities_from_ner step1.2
    pure (r.1, r.2, tm.template_answer)
  else
    pure (st2, step1.1, tm.template_answer)

/-- Projection of the state component of a `find_candidate_answers`
result, with a default for the exceptional case. -/
def stateOf (r : Except String (QGState × List Candidate × String)) (d : QGState) : QGState :=
  match r with
  | Except.ok v => v.1
  | Except.error _ => d

/-!
Embedding of `src/skill_selectors/rule_based_selector/server.py`
(`RuleBasedSelector.__call__`).  A dialogue state is modelled by the
fields the selector reads; dict lookups the source performs with `.get`
and a default are `Option`-valued fields read with `getD`, the ones it
performs by direct subscription are plain fields.  The `can_continue`
constants come from `common/constants.py`, which is outside `src/`;
their concrete values are immaterial to the control flow, only their
identity as three distinct markers is used.
-/

/-- Modelled from the spec: `CAN_NOT_CONTINUE` of `common.constants`
(outside `src/`); used only as the default of `hyp.get("can_continue", ...)`
and as a member of the continuation marker set. -/
def CAN_NOT_CONTINUE : String := "no"

/-- Modelled from the spec: `CAN_CONTINUE` of `common.constants`. -/
def CAN_CONTINUE : String := "can"

/-- Modelled from the spec: `MUST_CONTINUE` of `common.constants`. -/
def MUST_CONTINUE : String := "must"

/-- A skill hypothesis attached to a past user utterance.
`weather_slot_requested` embeds the key
`weather_forecast_interaction_city_slot_requested` (read with `.get` and
default `False`); `can_continue` is read with `.get` and default
`CAN_NOT_CONTINUE`. -/
structure Hyp where
  skill_name : String
  can_continue : Option String
  weather_slot_requested : Bool
  deriving DecidableEq, Repr

/-- One utterance with the annotation fields `__call__` reads.
`intent_catcher` maps intent names to their `detected` value;
`blacklisted_restricted` is the truthiness of
`annotations["blacklisted_words"]["restricted_topics"]`;
`active_skill` is read with `.get` and default `""`. -/
structure Utterance where
  text : String
  hypotheses : List Hyp
  active_skill : String
  intent_catcher : List (String × Nat)
  cobot_topics : List String
  cobot_dialogact_intents : List String
  cobot_dialogact_topics : List String
  blacklisted_restricted : Bool
  asr_confidence : String
  deriving DecidableEq, Repr

/-- A dialogue state of the batch. -/
structure Dialog where
  utterances : List Utterance
  deriving DecidableEq, Repr

/-- Python `xs[-k]` as an `Option` (used only under an explicit length
guard in the source). -/
def fromEnd {α : Type} (l : List α) (k : Nat) : Option α :=
  l.reverse.get? (k - 1)

/-- The class attribute `sensitive_topics`. -/
def sensitive_topics : List String :=
  ["Politics", "Celebrities", "Religion", "Sex_Profanity", "Sports", "News", "Psychology"]

/-- The class attribute `sensitive_dialogacts`. -/
def sensitive_dialogacts : List String :=
  ["Opinion_RequestIntent", "General_ChatIntent"]

/-- The intent names excluded from the `intent_detected` disjunction. -/
def excluded_intents : List String :=
  ["opinion_request", "yes", "no", "tell_me_more", "doing_well", "weather_forecast_intent"]

/-- The per-dialog body of `RuleBasedSelector.__call__`: the
`utterances[-1]` access can raise on an empty dialogue, everything after
it is total.  Mirrors the source's branch structure, the
`skills_for_uttr = ["misheard_asr"]` replacement, the final
`dummy_skill` append, and the closing `list(set(...))` (deduplication,
modelled order-preserving; the claims below depend only on membership
and distinctness). -/
def selectSkillsForDialog (d : Dialog) : Except String (List String) := do
  let lastU ← pyLast d.utterances
  let reply := pyLower (pyReplace lastU.text "\x27" " \x27")
  let intent_detected := (lastU.intent_catcher.filter
    (fun kv => !(excluded_intents.contains kv.1))).any (fun kv => kv.2 == 1)
  let cobot_topics := lastU.cobot_topics
  let sensitive_topics_detected := cobot_topics.any (fun t => sensitive_topics.contains t)
  let cobot_dialogacts := lastU.cobot_dialogact_intents
  let cobot_dialogact_topics := lastU.cobot_dialogact_topics
  let sensitive_dialogacts_detected := cobot_dialogacts.any
    (fun t => sensitive_dialogacts.contains t && pyStrIn "?" reply)
  let blist_topics_detected := lastU.blacklisted_restricted
  let movie_cobot_dialogacts := ["Entertainment_Movies", "Sports", "Entertainment_Music",
    "Entertainment_General", "Phatic"]
  let movie_cobot_topics := ["Movies_TV", "Celebrities", "Art_Event", "Entertainment",
    "Fashion", "Games", "Music", "Sports"]
  let books_cobot_dialogacts := ["Entertainment_General", "Entertainment_Books"]
  let books_cobot_topics := ["Entertainment", "Literature"]
  let about_movies := movie_cobot_dialogacts.any (fun t => cobot_dialogact_topics.contains t)
    || movie_cobot_topics.any (fun t => cobot_topics.contains t)
  let about_music := cobot_dialogact_topics.contains "Entertainment_Music"
    || cobot_topics.contains "Music"
  let about_books := books_cobot_dialogacts.any (fun t => cobot_dialogact_topics.contains t)
    || books_cobot_topics.any (fun t => cobot_topics.contains t)
  let prev_user_uttr_hyp :=
    if d.utterances.length ≥ 3 then
      ((fromEnd d.utterances 3).map Utterance.hypotheses).getD []
    else []
  let prev_bot_uttr :=
    if d.utterances.length ≥ 2 then fromEnd d.utterances 2 else none
  let weather_city_slot_requested :=
    (prev_user_uttr_hyp.filter (fun h => h.skill_name == "weather_skill")).any
      (fun h => h.weather_slot_requested)
  let about_weather :=
    (((lastU.intent_catcher.lookup "weather_forecast_intent").getD 0) != 0)
    || (((prev_bot_uttr.map Utterance.active_skill).getD "") == "weather_skill"
        && weather_city_slot_requested)
  let skills_for_uttr : List String :=
    if pyStrIn "/new_persona" lastU.text then
      ["personality_catcher"]
    else if intent_detected then
      ["intent_responder"]
    else if blist_topics_detected || (sensitive_topics_detected && sensitive_dialogacts_detected) then
      ["program_y_dangerous", "cobotqa"]
    else
      let sk := ["program_y", "cobotqa", "alice", "christmas_new_year_skill",
        "personal_info_skill"]
      let sk := if d.utterances.length > 7 then sk ++ ["tfidf_retrieval", "convert_reddit"] else sk
      let sk := if about_movies then sk ++ ["movie_skill"] else sk
      let sk := if about_music && d.utterances.length > 2 then sk ++ ["music_tfidf_retrieval"] else sk
      let sk := if about_books then sk ++ ["book_skill"] else sk
      let sk := if about_weather then sk ++ ["weather_skill"] else sk
      let sk := sk ++ (prev_user_uttr_hyp.filter (fun h =>
        (h.can_continue.getD CAN_NOT_CONTINUE) == CAN_CONTINUE ||
        (h.can_continue.getD CAN_NOT_CONTINUE) == MUST_CONTINUE)).map Hyp.skill_name
      if d.utterances.length > 1 && lastU.asr_confidence == "very_low" then
        ["misheard_asr"]
      else sk
  pure ((skills_for_uttr ++ ["dummy_skill"]).dedup)

/-- The accumulating `for dialog in states_batch` loop: process each
dialog in order, collecting the per-dialog skill lists; an exception in
one dialog propagates out of the whole call. -/
def mapE {α β : Type} (f : α → Except String β) : List α → Except String (List β)
  | [] => Except.ok []
  | x :: xs => do
    let y ← f x
    let ys ← mapE f xs
    pure (y :: ys)

/-- `RuleBasedSelector.__call__` over the whole batch. -/
def ruleBasedSelectorCall (states_batch : List Dialog) : Except String (List (List String)) :=
  mapE selectSkillsForDialog states_batch

/-!
Concrete fixtures used by counterexamples and witnesses.
-/

/-- A template matcher output with every component empty. -/
def tmEmpty : TMOut :=
  { entities_from_template := [], types_from_template := [], rels_from_template := [],
    rel_dirs_from_template := [], query_type_template := "", entity_types := [],
    template_answer := "", answer_types := [], template_found := "" }

/-- A services record whose collaborators all return trivial values. -/
def svcBase : Services :=
  { template_matcher := fun _ _ => tmEmpty,
    linker_entities := fun _ _ _ => Except.ok [],
    linker_types := fun _ => [],
    rank_rels := fun _ rels => rels.map (fun r => (r, 1)),
    wikiParser := fun _ _ => Except.ok [],
    queryParser := fun _ _ _ _ _ _ _ => [],
    search := fun _ _ => [],
    get_html := fun s => s,
    find_p := fun _ => [] }

/-- Fixture template `1`/`q1` with an alternative pointing at key `2`. -/
def tmplA : Template :=
  { template_num := "1", query_template := "q1", entities_and_types_num := [0, 0],
    entities_and_types_select := "s1", rel_dirs := ["forw"],
    alternative_templates := [("2", "sa")] }

/-- Fixture template `1`/`q2` with relation directions `["backw"]`. -/
def tmplB : Template :=
  { template_num := "1", query_template := "q2", entities_and_types_num := [0, 0],
    entities_and_types_select := "s2", rel_dirs := ["backw"],
    alternative_templates := [] }

/-- Fixture configuration: syntax structure unknown, alternatives on. -/
def cfgW : Config :=
  { structure_known := false, use_alt_templates := true, use_el_api_requester := false,
    use_wp_api_requester := false, entities_to_leave := 5, rels_to_leave := 7 }

/-- Fixture state: a two-record library keyed `1`, `2`, requested template `1`. -/
def stW : QGState :=
  { template_queries := [("1", tmplA), ("2", tmplB)], rank_list_0 := [],
    rank_list_1 := [], template_nums := ["1"] }

/-- Services whose query binder succeeds exactly on `q2` templates. -/
def svcQ2 : Services :=
  { svcBase with queryParser := fun _ t _ _ _ _ _ =>
      if t.query_template == "q2" then [Candidate.fromQp ["ans"]] else [] }

/-- Services whose template matcher yields an entity mention but an empty
relation list. -/
def svcRelsEmpty : Services :=
  { svcBase with template_matcher := fun _ _ =>
      { tmEmpty with entities_from_template := ["justin"] } }

/-- Services whose template matcher yields an entity mention and a plain
(non-how-to) relation. -/
def svcPlainRel : Services :=
  { svcBase with template_matcher := fun _ _ =>
      { tmEmpty with
        entities_from_template := ["justin"],
        rels_from_template := [["P17"]] } }

/-- Services whose template matcher yields only a type mention together
with the how-to marker relation. -/
def svcPhowNoEnt : Services :=
  { svcBase with template_matcher := fun _ _ =>
      { tmEmpty with
        types_from_template := ["city"],
        rels_from_template := [["PHOW"]] } }

/-- Services whose template matcher yields an entity mention with the
how-to marker relation. -/
def svcPhow : Services :=
  { svcBase with template_matcher := fun _ _ =>
      { tmEmpty with
        entities_from_template := ["how to make a cake"],
        rels_from_template := [["PHOW"]] } }

/-- Services whose linker and wiki parser raise a JSON decode error. -/
def svcErr : Services :=
  { svcBase with
    linker_entities := fun _ _ _ => Except.error (),
    wikiParser := fun _ _ => Except.error () }

/-- Fixture utterance for the selector witness. -/
def uttW : Utterance :=
  { text := "what is the weather", hypotheses := [], active_skill := "",
    intent_catcher := [], cobot_topics := [], cobot_dialogact_intents := [],
    cobot_dialogact_topics := [], blacklisted_restricted := false,
    asr_confidence := "high" }

/-- Fixture one-utterance dialog for the selector witness. -/
def dialogW : Dialog := { utterances := [uttW] }

/-!
Helper lemmas about the loop helpers.
-/

lemma tryTemplates_first_success (qp1 : Template → String → List Candidate)
    (pre : List Template) (t : Template) (post : List Template)
    (hpre : ∀ u ∈ pre, qp1 u u.entities_and_types_select = [])
    (ht : qp1 t t.entities_and_types_select ≠ []) :
    tryTemplates qp1 (pre ++ t :: post) =
      (qp1 t t.entities_and_types_select,
        (pre ++ [t]).map (fun u => (u, u.entities_and_types_select))) := by
  induction pre with
  | nil => simp [tryTemplates, ht]
  | cons u us ih =>
    have hu := hpre u (by simp)
    have ih2 := ih (fun v hv => hpre v (by simp [hv]))
    simp [tryTemplates, hu, ih2]

lemma tryTemplates_all_empty (qp1 : Template → String → List Candidate)
    (ts : List Template)
    (h : ∀ u ∈ ts, qp1 u u.entities_and_types_select = []) :
    tryTemplates qp1 ts = ([], ts.map (fun u => (u, u.entities_and_types_select))) := by
  induction ts with
  | nil => simp [tryTemplates]
  | cons u us ih =>
    have hu := h u (by simp)
    have ih2 := ih (fun v hv => h v (by simp [hv]))
    simp [tryTemplates, hu, ih2]

lemma tryAlts_first_success (tq : List (String × Template))
    (qp1 : Template → String → List Candidate)
    (preA postA : List (String × String)) (num sel : String) (ta : Template)
    (hpre : ∀ p ∈ preA, ∃ tp, tq.lookup p.1 = some tp ∧ qp1 tp p.2 = [])
    (hl : tq.lookup num = some ta) (hs : qp1 ta sel ≠ []) :
    ∃ trPre : Trace, tryAlts tq qp1 (preA ++ (num, sel) :: postA) =
      Except.ok (qp1 ta sel, trPre ++ [(ta, sel)]) ∧ trPre.length = preA.length := by
  induction preA with
  | nil =>
    refine ⟨[], ?_, rfl⟩
    simp [tryAlts, lookupTemplate, hl, hs, Bind.bind, Except.bind, pure, Except.pure]
  | cons p ps ih =>
    obtain ⟨tp, hlp, hep⟩ := hpre p (by simp)
    obtain ⟨trPre, htr, hlen⟩ := ih (fun v hv => hpre v (by simp [hv]))
    refine ⟨(tp, p.2) :: trPre, ?_, by simp [hlen]⟩
    obtain ⟨p1, p2⟩ := p
    simp only [List.cons_append]
    simp [tryAlts, lookupTemplate, hlp, hep, htr, Bind.bind, Except.bind, pure, Except.pure]

lemma lastMatching_some_spec (dirs : Option (List String)) (ts : List Template)
    (acc : Option Template) (qt : Template)
    (h : ts.foldl (fun a t => if some t.rel_dirs = dirs then some t else a) acc = some qt) :
    (qt ∈ ts ∧ some qt.rel_dirs = dirs) ∨ acc = some qt := by
  induction ts generalizing acc with
  | nil => right; simpa using h
  | cons t rest ih =>
    simp only [List.foldl_cons] at h
    rcases ih _ h with h1 | h2
    · exact Or.inl ⟨List.mem_cons_of_mem _ h1.1, h1.2⟩
    · by_cases hc : some t.rel_dirs = dirs
      · rw [if_pos hc] at h2
        exact Or.inl ⟨by simp [← Option.some_inj.mp h2], by
          rw [← Option.some_inj.mp h2]; exact hc⟩
      · rw [if_neg hc] at h2
        exact Or.inr h2

lemma lastMatching_none_aux (dirs : Option (List String)) (ts : List Template)
    (acc : Option Template)
    (h : ts.foldl (fun a t => if some t.rel_dirs = dirs then some t else a) acc = none) :
    acc = none ∧ ∀ t ∈ ts, some t.rel_dirs ≠ dirs := by
  induction ts generalizing acc with
  | nil => exact ⟨by simpa using h, by simp⟩
  | cons t rest ih =>
    simp only [List.foldl_cons] at h
    obtain ⟨hacc, hrest⟩ := ih _ h
    by_cases hc : some t.rel_dirs = dirs
    · rw [if_pos hc] at hacc; cases hacc
    · rw [if_neg hc] at hacc
      refine ⟨hacc, ?_⟩
      intro u hu
      rcases List.mem_cons.mp hu with h1 | h2
      · subst h1; exact hc
      · exact hrest u h2

lemma lastMatching_none_spec (dirs : Option (List String)) (ts : List Template)
    (h : lastMatching dirs ts = none) :
    ∀ t ∈ ts, some t.rel_dirs ≠ dirs :=
  fun t ht => (lastMatching_none_aux dirs ts none h).2 t ht

lemma nerFallback_state (cfg : Config) (svc : Services) (st2 : QGState)
    (q qs : String) (tts : List String) (ai : AnswerInfo) (ner : List String)
    (ntys : List MentionTypes) (v : QGState × List Candidate)
    (h : nerFallback cfg svc st2 q qs tts ai ner ntys = Except.ok v) :
    v.1 = { st2 with template_nums := tts } := by
  unfold nerFallback at h
  simp only [Bind.bind, Except.bind, pure, Except.pure] at h
  repeat' split at h
  all_goals cases h
  all_goals rfl

/-!
Claim theorems.
-/

/-- C1: with no relation-direction signature (`rels_from_template = none`),
`sparql_template_parser` tries the eligible templates in order and
returns the first non-empty `query_parser` result without invoking the
binder on any later template (the trace covers exactly the templates up
to and including the first success); alternative templates run only when
every primary template produced an empty result and `use_alt_templates`
is on, in which case the result is exactly that of the alternative loop
over `templates[0]`'s declared alternatives, which itself returns at the
first non-empty result, leaving later alternatives untried. -/
theorem c1_ordered_templates_then_alternatives (cfg : Config) (svc : Services)
    (st : QGState) (q : String) (eids tids : EntityIds) (ai : AnswerInfo)
    (qp1 : Template → String → List Candidate) (ts : List Template)
    (hqp : qp1 = qpOf svc q eids tids none ai)
    (hts : ts = eligibleTemplates cfg st.template_queries st.template_nums eids tids) :
    (∀ pre t post, ts = pre ++ t :: post →
      (∀ u ∈ pre, qp1 u u.entities_and_types_select = []) →
      qp1 t t.entities_and_types_select ≠ [] →
      sparqlTemplateParser cfg svc st q eids tids ai none none =
        Except.ok (qp1 t t.entities_and_types_select,
          (pre ++ [t]).map (fun u => (u, u.entities_and_types_select)))) ∧
    (ts ≠ [] → (∀ u ∈ ts, qp1 u u.entities_and_types_select = []) →
      cfg.use_alt_templates = false →
      sparqlTemplateParser cfg svc st q eids tids ai none none =
        Except.ok ([], ts.map (fun u => (u, u.entities_and_types_select)))) ∧
    (∀ t0 rest, ts = t0 :: rest →
      (∀ u ∈ ts, qp1 u u.entities_and_types_select = []) →
      cfg.use_alt_templates = true →
      sparqlTemplateParser cfg svc st q eids tids ai none none =
        (tryAlts st.template_queries qp1 t0.alternative_templates).map
          (fun r2 => (r2.1, ts.map (fun u => (u, u.entities_and_types_select)) ++ r2.2))) ∧
    (∀ (tq : List (String × Template)) (preA postA : List (String × String))
        (num sel : String) (ta : Template),
      (∀ p ∈ preA, ∃ tp, tq.lookup p.1 = some tp ∧ qp1 tp p.2 = []) →
      tq.lookup num = some ta → qp1 ta sel ≠ [] →
      ∃ trPre : Trace, tryAlts tq qp1 (preA ++ (num, sel) :: postA) =
        Except.ok (qp1 ta sel, trPre ++ [(ta, sel)]) ∧ trPre.length = preA.length) := by
  subst hqp
  refine ⟨?_, ?_, ?_, ?_⟩
  · intro pre t post hts2 hpre ht
    have hrun := tryTemplates_first_success (qpOf svc q eids tids none ai) pre t post hpre ht
    unfold sparqlTemplateParser
    rw [← hts, hts2]
    simp [hrun, ht, Bind.bind, Except.bind, pure, Except.pure]
  · intro hne hall halt
    have hrun := tryTemplates_all_empty (qpOf svc q eids tids none ai) ts hall
    unfold sparqlTemplateParser
    rw [← hts]
    rcases List.exists_cons_of_ne_nil hne with ⟨t0, rest, hcons⟩
    rw [hcons]
    rw [hcons] at hrun
    simp [hrun, halt, Bind.bind, Except.bind, pure, Except.pure]
  · intro t0 rest hcons hall halt
    have hrun := tryTemplates_all_empty (qpOf svc q eids tids none ai) ts hall
    unfold sparqlTemplateParser
    rw [← hts, hcons]
    rw [hcons] at hrun
    simp only [hrun]
    cases h2 : tryAlts st.template_queries (qpOf svc q eids tids none ai)
        t0.alternative_templates with
    | error e =>
      simp [halt, h2, pyIndex, Bind.bind, Except.bind, pure, Except.pure, Except.map]
    | ok r2 =>
      simp [halt, h2, pyIndex, Bind.bind, Except.bind, pure, Except.pure, Except.map]
  · intro tq preA postA num sel ta hpre hl hs
    exact tryAlts_first_success tq (qpOf svc q eids tids none ai) preA postA num sel ta
      hpre hl hs

/-- C2: with a supplied relation-direction signature, at most one
template is bound: the trace has length at most one, every traced
template is an eligible template whose `rel_dirs` equal the signature
and the whole result is its single binder output; and when no eligible
template carries that exact signature the call returns an empty
candidate list with no binder invocation (in particular the
alternative-template loop never runs on this path). -/
theorem c2_signature_selects_at_most_one (cfg : Config) (svc : Services)
    (st : QGState) (q : String) (eids tids : EntityIds) (ai : AnswerInfo)
    (rels : List (List String)) (dirs : Option (List String))
    (outs : List Candidate) (tr : Trace)
    (h : sparqlTemplateParser cfg svc st q eids tids ai (some rels) dirs =
      Except.ok (outs, tr)) :
    tr.length ≤ 1 ∧
    (∀ p ∈ tr, some p.1.rel_dirs = dirs ∧
      p.1 ∈ eligibleTemplates cfg st.template_queries st.template_nums eids tids ∧
      p.2 = p.1.entities_and_types_select ∧
      outs = qpOf svc q eids tids (some rels) ai p.1 p.1.entities_and_types_select) ∧
    ((∀ t ∈ eligibleTemplates cfg st.template_queries st.template_nums eids tids,
        some t.rel_dirs ≠ dirs) → outs = [] ∧ tr = []) := by
  unfold sparqlTemplateParser at h
  by_cases hempty : eligibleTemplates cfg st.template_queries st.template_nums eids tids = []
  · rw [hempty] at h
    simp [pure, Except.pure] at h
    obtain ⟨ho, htr⟩ := h
    subst ho; subst htr
    refine ⟨by simp, by simp, fun _ => ⟨rfl, rfl⟩⟩
  · rw [if_neg hempty] at h
    cases hm : lastMatching dirs
        (eligibleTemplates cfg st.template_queries st.template_nums eids tids) with
    | some qt =>
      rw [hm] at h
      simp [pure, Except.pure] at h
      obtain ⟨ho, htr⟩ := h
      subst ho; subst htr
      obtain ⟨hmem, hdirs⟩ := (lastMatching_some_spec dirs _ none qt hm).resolve_right
        (by simp)
      refine ⟨by simp, ?_, ?_⟩
      · intro p hp
        rcases List.mem_singleton.mp hp with hpe
        subst hpe
        exact ⟨hdirs, hmem, rfl, rfl⟩
      · intro hnone
        exact absurd hdirs (hnone qt hmem)
    | none =>
      rw [hm] at h
      simp [pure, Except.pure] at h
      obtain ⟨ho, htr⟩ := h
      subst ho; subst htr
      exact ⟨by simp, by simp, fun _ => ⟨rfl, rfl⟩⟩

/-- Witness for C1: on the fixture library both templates are eligible;
the binder fails on `tmplA` and succeeds on `tmplB`, so the parser
returns `tmplB`'s output after trying exactly the two of them. -/
theorem c1_witness :
    sparqlTemplateParser cfgW svcQ2 stW "qq" [] [] (Sum.inr "f") none none =
      Except.ok (qpOf svcQ2 "qq" [] [] none (Sum.inr "f") tmplB
        tmplB.entities_and_types_select,
        ([tmplA] ++ [tmplB]).map (fun u => (u, u.entities_and_types_select))) :=
  (c1_ordered_templates_then_alternatives cfgW svcQ2 stW "qq" [] [] (Sum.inr "f")
    (qpOf svcQ2 "qq" [] [] none (Sum.inr "f")) [tmplA, tmplB] rfl rfl).1
    [tmplA] tmplB [] rfl (by decide) (by decide)

/-- Witness for C2: with signature `["backw"]` the fixture parser selects
exactly `tmplB` and binds it once. -/
theorem c2_witness :
    ([(tmplB, "s2")] : Trace).length ≤ 1 ∧
    (∀ p ∈ ([(tmplB, "s2")] : Trace), some p.1.rel_dirs = some ["backw"] ∧
      p.1 ∈ eligibleTemplates cfgW stW.template_queries stW.template_nums [] [] ∧
      p.2 = p.1.entities_and_types_select ∧
      [Candidate.fromQp ["ans"]] = qpOf svcQ2 "qq" [] [] (some [["P17"]]) (Sum.inr "f")
        p.1 p.1.entities_and_types_select) ∧
    ((∀ t ∈ eligibleTemplates cfgW stW.template_queries stW.template_nums [] [],
        some t.rel_dirs ≠ some ["backw"]) →
      [Candidate.fromQp ["ans"]] = ([] : List Candidate) ∧
      ([(tmplB, "s2")] : Trace) = []) :=
  c2_signature_selects_at_most_one cfgW svcQ2 stW "qq" [] [] (Sum.inr "f") [["P17"]]
    (some ["backw"]) [Candidate.fromQp ["ans"]] [(tmplB, "s2")] rfl

/-- C8: when the syntax structure is not known, a template is eligible
(collected for the query binder by `sparql_template_parser`, whose
template-filter stage is `eligibleTemplates`) only if the declared
`entities_and_types_num` equals `[len(entity_ids), len(type_ids)]`; when
it is known, the slot-count restriction is not applied — eligibility is
independent of the entity and type candidate lists. -/
theorem c8_slot_count_eligibility (cfg : Config) (tq : List (String × Template))
    (nums : List String) (eids tids : EntityIds) :
    (cfg.structure_known = false →
      ∀ t ∈ eligibleTemplates cfg tq nums eids tids,
        [eids.length, tids.length] = t.entities_and_types_num) ∧
    (cfg.structure_known = true → ∀ eids2 tids2 : EntityIds,
      eligibleTemplates cfg tq nums eids tids = eligibleTemplates cfg tq nums eids2 tids2) := by
  constructor
  · intro hknown t ht
    unfold eligibleTemplates at ht
    rw [List.mem_filter] at ht
    have := ht.2
    rw [hknown] at this
    simpa using of_decide_eq_true (by simpa using this)
  · intro hknown eids2 tids2
    unfold eligibleTemplates
    rw [hknown]
    simp

/-- Witness for C8 at the fixture configuration and a syntax-known
variant of it. -/
theorem c8_witness :
    ((cfgW.structure_known = false →
      ∀ t ∈ eligibleTemplates cfgW stW.template_queries ["1"] [["Q1"]] [],
        [[["Q1"]].length, ([] : EntityIds).length] = t.entities_and_types_num) ∧
    (cfgW.structure_known = true → ∀ eids2 tids2 : EntityIds,
      eligibleTemplates cfgW stW.template_queries ["1"] [["Q1"]] [] =
        eligibleTemplates cfgW stW.template_queries ["1"] eids2 tids2)) ∧
    eligibleTemplates cfgW stW.template_queries ["1"] [["Q1"]] [] = [] :=
  ⟨c8_slot_count_eligibility cfgW stW.template_queries ["1"] [["Q1"]] [], by decide⟩

/-- C5: `find_top_rels` returns at most `rels_to_leave` ranked relations;
it returns the empty list whenever the relation pool filtered to
identifiers starting with `"P"` is empty; and per entity mention, the
queries sent to the wiki parser draw on at most `entities_to_leave`
entity identifiers (the queries naming identifiers of a given mention
form a duplicate-free list bounded by `entities_to_leave`). -/
theorem c5_find_top_rels_bounds (cfg : Config) (svc : Services) (st : QGState)
    (q : String) (eids : EntityIds) (trip : String × String × String) :
    (find_top_rels cfg svc st q eids trip).length ≤ cfg.rels_to_leave ∧
    ((exRelsOf cfg svc st eids trip).filter (fun rel => pyStartsWith rel "P") = [] →
      find_top_rels cfg svc st q eids trip = []) ∧
    (∀ ids ∈ eids,
      ((queriesListOf cfg eids trip.1 trip.2.2).filter
        (fun qr => (ids.take cfg.entities_to_leave).contains qr.1)).length ≤
        cfg.entities_to_leave) := by
  refine ⟨?_, ?_, ?_⟩
  · unfold find_top_rels
    exact List.length_take_le _ _
  · intro hempty
    unfold find_top_rels
    rw [hempty]
    simp
  · intro ids _
    set e := cfg.entities_to_leave with he
    set L := queriesListOf cfg eids trip.1 trip.2.2 with hL
    have hnodupL : L.Nodup := by
      rw [hL]; exact List.nodup_dedup _
    set F := L.filter (fun qr => (ids.take e).contains qr.1) with hF
    have hnodupF : F.Nodup := hnodupL.filter _
    have hshape : ∀ x ∈ L, x.2.1 = trip.1 ∧ x.2.2 = trip.2.2 := by
      intro x hx
      rw [hL] at hx
      unfold queriesListOf at hx
      rw [List.mem_dedup] at hx
      rw [List.mem_flatMap] at hx
      obtain ⟨idl, _, hx2⟩ := hx
      rw [List.mem_map] at hx2
      obtain ⟨ent, _, hx3⟩ := hx2
      subst hx3
      exact ⟨rfl, rfl⟩
    have hinj : ∀ x ∈ F, ∀ y ∈ F, x.1 = y.1 → x = y := by
      intro x hx y hy hxy
      have hxL : x ∈ L := List.mem_of_mem_filter hx
      have hyL : y ∈ L := List.mem_of_mem_filter hy
      obtain ⟨hx1, hx2⟩ := hshape x hxL
      obtain ⟨hy1, hy2⟩ := hshape y hyL
      have h2 : x.2 = y.2 := by
        apply Prod.ext
        · rw [hx1, hy1]
        · rw [hx2, hy2]
      exact Prod.ext hxy h2
    have hmapped : (F.map (fun qr => qr.1)).Nodup := hnodupF.map_on hinj
    have hsub : F.map (fun qr => qr.1) ⊆ ids.take e := by
      intro a ha
      rw [List.mem_map] at ha
      obtain ⟨x, hx, hax⟩ := ha
      have := List.of_mem_filter hx
      subst hax
      exact List.mem_of_elem_eq_true this
    have hlen : (F.map (fun qr => qr.1)).length ≤ (ids.take e).length :=
      (hmapped.subperm hsub).length_le
    calc F.length = (F.map (fun qr => qr.1)).length := (List.length_map _ _).symm
      _ ≤ (ids.take e).length := hlen
      _ ≤ e := List.length_take_le _ _

/-- Witness for C5 at a concrete call whose pool filters to empty. -/
theorem c5_witness :
    ((find_top_rels cfgW svcBase stW "qq" [["Q1", "Q2"]] ("forw", "wiki", "no_type")).length ≤
      cfgW.rels_to_leave ∧
    ((exRelsOf cfgW svcBase stW [["Q1", "Q2"]] ("forw", "wiki", "no_type")).filter
        (fun rel => pyStartsWith rel "P") = [] →
      find_top_rels cfgW svcBase stW "qq" [["Q1", "Q2"]] ("forw", "wiki", "no_type") = []) ∧
    (∀ ids ∈ [["Q1", "Q2"]],
      ((queriesListOf cfgW [["Q1", "Q2"]] "forw" "no_type").filter
        (fun qr => (ids.take cfgW.entities_to_leave).contains qr.1)).length ≤
        cfgW.entities_to_leave)) ∧
    find_top_rels cfgW svcBase stW "qq" [["Q1", "Q2"]] ("forw", "wiki", "no_type") = [] :=
  ⟨c5_find_top_rels_bounds cfgW svcBase stW "qq" [["Q1", "Q2"]] ("forw", "wiki", "no_type"),
    (c5_find_top_rels_bounds cfgW svcBase stW "qq" [["Q1", "Q2"]]
      ("forw", "wiki", "no_type")).2.1 (by decide)⟩

/-- C7: a JSON decode error from the entity linker makes
`get_entity_ids` return an empty identifier list (a normal return, not a
propagated exception), and a JSON decode error from the wiki parser
makes `find_top_rels` proceed with an empty relation set and return no
relations. -/
theorem c7_decode_errors_absorbed (cfg : Config) (svc : Services) (st : QGState)
    (ents : List String) (tf : Option String) (q q2 : String)
    (etys : List MentionTypes) (eids : EntityIds) (dir rt : String)
    (hl : ∀ a b c, svc.linker_entities a b c = Except.error ())
    (hw : ∀ a b, svc.wikiParser a b = Except.error ()) :
    get_entity_ids svc ents "entities" tf q etys = Except.ok [] ∧
    find_top_rels cfg svc st q2 eids (dir, "wiki", rt) = [] := by
  constructor
  · unfold get_entity_ids
    simp only [hl]
    simp
  · unfold find_top_rels exRelsOf
    simp only [hw]
    simp

/-- Witness for C7 with collaborators that raise decode errors. -/
theorem c7_witness :
    get_entity_ids svcErr ["justin"] "entities" none "qq" [] = Except.ok [] ∧
    find_top_rels cfgW svcErr stW "qq" [["Q1"]] ("forw", "wiki", "no_type") = [] :=
  c7_decode_errors_absorbed cfgW svcErr stW ["justin"] none "qq" "qq" [] [["Q1"]]
    "forw" "no_type" (fun _ _ _ => rfl) (fun _ _ => rfl)

/-- C6: when the template matcher yields no entity mention, no type
mention and no template answer (no template match) and the NER entity
list is empty, `find_candidate_answers` returns an empty candidate list
and an empty template answer. -/
theorem c6_no_entities_no_candidates (cfg : Config) (svc : Services) (st : QGState)
    (q qs : String) (tts : List String) (ntys : List MentionTypes) (flag : String)
    (h1 : (svc.template_matcher qs []).entities_from_template = [])
    (h2 : (svc.template_matcher qs []).types_from_template = [])
    (h3 : (svc.template_matcher qs []).template_answer = "") :
    find_candidate_answers cfg svc st q qs tts [] ntys flag =
      Except.ok ({ st with
        template_nums := [(svc.template_matcher qs []).query_type_template] }, [], "") := by
  unfold find_candidate_answers
  simp [h1, h2, h3, Bind.bind, Except.bind, pure, Except.pure]

/-- Witness for C6 with the trivial template matcher. -/
theorem c6_witness :
    find_candidate_answers cfgW svcBase stW "qq" "qq" ["1"] [] [] "f" =
      Except.ok ({ stW with
        template_nums := [(svcBase.template_matcher "qq" []).query_type_template] },
        [], "") :=
  c6_no_entities_no_candidates cfgW svcBase stW "qq" "qq" ["1"] [] "f" rfl rfl rfl

lemma find_answer_wikihow_ne_empty (svc : Services) (s : String) :
    find_answer_wikihow svc s ≠ "" := by
  unfold find_answer_wikihow
  cases svc.search s 5 with
  | nil => simp
  | cons a rest =>
    cases h : svc.find_p (svc.get_html a) with
    | nil => simp [h]
    | cons t ts =>
      simp only [h]
      intro heq
      have hlen := congrArg String.length heq
      rw [String.length_append] at hlen
      have h3 : ("@en" : String).length = 3 := rfl
      have h0 : ("" : String).length = 0 := rfl
      rw [h3, h0] at hlen
      omega

/-- C4 counterexample: the claim quantifies over matcher outputs with
entity *or* type mentions; when only a type mention accompanies the
`PHOW` marker, the source indexes `entities_from_template[0]` on an
empty list and raises `IndexError` instead of returning the single
`PHOW`-tagged candidate. -/
theorem c4_counterexample :
    find_candidate_answers cfgW svcPhowNoEnt stW "qq" "qq" ["1"] [] [] "f" =
      Except.error "IndexError" ∧
    ∀ (st' : QGState) (c a : String),
      find_candidate_answers cfgW svcPhowNoEnt stW "qq" "qq" ["1"] [] [] "f" ≠
        Except.ok (st', [Candidate.phow c], a) := by
  constructor
  · rfl
  · intro st' c a h
    rw [show find_candidate_answers cfgW svcPhowNoEnt stW "qq" "qq" ["1"] [] [] "f" =
      Except.error "IndexError" from rfl] at h
    cases h

/-- C4 (amended): when the template matcher yields at least one entity
mention and the first matched relation is the `"PHOW"` marker,
`find_candidate_answers` returns exactly the single-element `PHOW`
candidate whose content is the wikihow extraction for the first entity
mention — a string that is never empty (either extracted text suffixed
`@en` or the `"Not Found"` sentinel) — and neither the graph-query path
nor the NER fallback path contributes to the result. -/
theorem c4_phow_single_candidate (cfg : Config) (svc : Services) (st : QGState)
    (q qs : String) (tts : List String) (ner : List String) (ntys : List MentionTypes)
    (flag : String) (e0 : String) (r0 : List String)
    (h1 : (svc.template_matcher qs ner).entities_from_template.head? = some e0)
    (h2 : (svc.template_matcher qs ner).rels_from_template.head? = some r0)
    (h3 : r0.head? = some "PHOW") :
    find_candidate_answers cfg svc st q qs tts ner ntys flag =
      Except.ok ({ st with
        template_nums := [(svc.template_matcher qs ner).query_type_template] },
        [Candidate.phow (find_answer_wikihow svc e0)],
        (svc.template_matcher qs ner).template_answer) ∧
    find_answer_wikihow svc e0 ≠ "" := by
  refine ⟨?_, find_answer_wikihow_ne_empty svc e0⟩
  rcases hR0 : r0 with _ | ⟨x, xs⟩
  · rw [hR0] at h3; cases h3
  rw [hR0] at h2
  rw [hR0] at h3
  simp only [List.head?_cons, Option.some_inj] at h3
  subst h3
  rcases hE : (svc.template_matcher qs ner).entities_from_template with _ | ⟨ea, etl⟩
  · rw [hE] at h1; cases h1
  rcases hR : (svc.template_matcher qs ner).rels_from_template with _ | ⟨ra, rtl⟩
  · rw [hR] at h2; cases h2
  rw [hE] at h1
  rw [hR] at h2
  simp only [List.head?_cons, Option.some_inj] at h1 h2
  subst h1
  subst h2
  unfold find_candidate_answers templatePath
  simp [hE, hR, pyIndex, Bind.bind, Except.bind, pure, Except.pure]

/-- Witness for C4 (amended) at the fixture how-to matcher. -/
theorem c4_witness :
    find_candidate_answers cfgW svcPhow stW "qq" "qq" ["1"] [] [] "f" =
      Except.ok ({ stW with
        template_nums := [(svcPhow.template_matcher "qq" []).query_type_template] },
        [Candidate.phow (find_answer_wikihow svcPhow "how to make a cake")],
        (svcPhow.template_matcher "qq" []).template_answer) ∧
    find_answer_wikihow svcPhow "how to make a cake" ≠ "" :=
  c4_phow_single_candidate cfgW svcPhow stW "qq" "qq" ["1"] [] [] "f"
    "how to make a cake" ["PHOW"] rfl rfl rfl

/-- C3 (the two crash points): `find_candidate_answers` raises
`IndexError` when the template matcher yields an entity mention with an
empty relation list (`rels_from_template[0]`), and when it yields an
entity mention with a plain relation while more than one NER mention
carries only `"misc"` types (`filtered_types[-1]` on an empty filter
result) — the NER-path twin of that filter is guarded, this one is not. -/
theorem c3_crash_points :
    find_candidate_answers cfgW svcRelsEmpty stW "qq" "qq" ["1"] [] [] "f" =
      Except.error "IndexError" ∧
    find_candidate_answers cfgW svcPlainRel stW "qq" "qq" ["1"] []
      [[["misc", "x"]], [["misc", "y"]]] "f" = Except.error "IndexError" :=
  ⟨rfl, rfl⟩

/-- C9: the template library and the two static rank lists are unchanged
by `find_candidate_answers` — the composite entry point that performs
every `self` assignment of the embedded methods (only `template_nums`)
and calls `get_entity_ids`, `sparql_template_parser` and the binder;
`get_entity_ids`, `sparqlTemplateParser` and `find_top_rels` contain no
assignment in the source and are embedded as read-only functions of the
state, so no call on them can modify these fields either.  `load` is the
one function that populates them. -/
theorem c9_frame_immutability (cfg : Config) (svc : Services) (st : QGState)
    (q qs : String) (tts : List String) (ner : List String) (ntys : List MentionTypes)
    (flag : String) :
    (stateOf (find_candidate_answers cfg svc st q qs tts ner ntys flag) st).template_queries
      = st.template_queries ∧
    (stateOf (find_candidate_answers cfg svc st q qs tts ner ntys flag) st).rank_list_0
      = st.rank_list_0 ∧
    (stateOf (find_candidate_answers cfg svc st q qs tts ner ntys flag) st).rank_list_1
      = st.rank_list_1 := by
  have key : ∀ v, find_candidate_answers cfg svc st q qs tts ner ntys flag = Except.ok v →
      v.1.template_queries = st.template_queries ∧ v.1.rank_list_0 = st.rank_list_0 ∧
      v.1.rank_list_1 = st.rank_list_1 := by
    intro v h
    unfold find_candidate_answers at h
    simp only [Bind.bind, Except.bind, pure, Except.pure] at h
    repeat' split at h
    all_goals try (cases h; done)
    all_goals try (injection h with h2; subst h2; exact ⟨rfl, rfl, rfl⟩)
    all_goals (rename_i r hr
               injection h with h2
               subst h2
               simp [nerFallback_state _ _ _ _ _ _ _ _ _ r hr])
  cases hr : find_candidate_answers cfg svc st q qs tts ner ntys flag with
  | error e => simp [stateOf, hr]
  | ok v =>
    have hv := key v hr
    simpa [stateOf, hr] using hv

lemma selectSkills_shape (d : Dialog) (skills : List String)
    (h : selectSkillsForDialog d = Except.ok skills) :
    "dummy_skill" ∈ skills ∧ skills.Nodup := by
  unfold selectSkillsForDialog at h
  simp only [Bind.bind, Except.bind, pure, Except.pure] at h
  cases hl : pyLast d.utterances with
  | error e => simp only [hl] at h; cases h
  | ok lastU =>
    simp only [hl] at h
    injection h with h2
    constructor
    · rw [← h2]
      exact List.mem_dedup.2 (by simp)
    · rw [← h2]
      exact List.nodup_dedup _

lemma mapE_ok_mem {α β : Type} (f : α → Except String β) (l : List α) (res : List β)
    (h : mapE f l = Except.ok res) : ∀ r ∈ res, ∃ x ∈ l, f x = Except.ok r := by
  induction l generalizing res with
  | nil =>
    simp only [mapE] at h
    injection h with h2
    subst h2
    simp
  | cons x xs ih =>
    simp only [mapE, Bind.bind, Except.bind, pure, Except.pure] at h
    cases hf : f x with
    | error e => simp only [hf] at h; cases h
    | ok y =>
      simp only [hf] at h
      cases hm : mapE f xs with
      | error e => simp only [hm] at h; cases h
      | ok ys =>
        simp only [hm] at h
        injection h with h2
        subst h2
        intro r hr
        rcases List.mem_cons.mp hr with h1 | h2
        · exact ⟨x, by simp, h1 ▸ hf⟩
        · obtain ⟨x2, hx2, hfx2⟩ := ih ys hm r h2
          exact ⟨x2, by simp [hx2], hfx2⟩

/-- C10: every per-dialog skill list returned by
`RuleBasedSelector.__call__` contains `"dummy_skill"` and has no
duplicate names — the `dummy_skill` append and the `list(set(...))`
deduplication run after every branch, including the sensitive-content
branch and the `["misheard_asr"]` replacement. -/
theorem c10_dummy_skill_and_nodup (batch : List Dialog) (res : List (List String))
    (h : ruleBasedSelectorCall batch = Except.ok res) :
    ∀ skills ∈ res, "dummy_skill" ∈ skills ∧ skills.Nodup := by
  intro skills hs
  obtain ⟨d, _, hd⟩ := mapE_ok_mem selectSkillsForDialog batch res h skills hs
  exact selectSkills_shape d skills hd

/-- Witness for C10 on the fixture one-utterance dialog. -/
theorem c10_witness :
    "dummy_skill" ∈ ["program_y", "cobotqa", "alice", "christmas_new_year_skill",
      "personal_info_skill", "dummy_skill"] ∧
    (["program_y", "cobotqa", "alice", "christmas_new_year_skill",
      "personal_info_skill", "dummy_skill"] : List String).Nodup :=
  c10_dummy_skill_and_nodup [dialogW]
    [["program_y", "cobotqa", "alice", "christmas_new_year_skill",
      "personal_info_skill", "dummy_skill"]] rfl
    ["program_y", "cobotqa", "alice", "christmas_new_year_skill",
      "personal_info_skill", "dummy_skill"] (by simp)

end Dream
